import Mathlib

/-
Verification of the career-evolution ODE model (AS1_Main.py).

The career state z is the list [Pay, Status, Research] and the parameter
list is [recognition_val, alpha_R_val, alpha_T_val, beta_val].  Python list
indexing is partial (an out-of-range index raises), so every function that
indexes into its list arguments is embedded as an Option-valued function:
`some r` models a normal return of r, `none` models an IndexError.
Numbers are embedded as exact rationals.
-/

namespace AS1Main

/-- Annual inflation rate (module constant `inflation = 0.02`). -/
def inflation : ℚ := 0.02

/-- Module constant RECOGNITION_VAL. -/
def RECOGNITION_VAL : ℚ := 0.01

/-- Module constant ALPHA_R_VAL. -/
def ALPHA_R_VAL : ℚ := 0.05

/-- Module constant ALPHA_T_VAL. -/
def ALPHA_T_VAL : ℚ := 0.01

/-- Module constant BETA_VAL. -/
def BETA_VAL : ℚ := 0.5

/-- Module constant female_reduction_factor. -/
def female_reduction_factor : ℚ := 0.51546

/-- Recognition factor for pay increase due to status: `return val`. -/
def recognition (t val : ℚ) : ℚ := val

/-- Research contribution to status change: `return val`. -/
def alpha_R (t val : ℚ) : ℚ := val

/-- Teaching contribution to status change: `return val`. -/
def alpha_T (t val : ℚ) : ℚ := val

/-- Research growth rate: `return val`. -/
def beta (t val : ℚ) : ℚ := val

/-- Pay derivative: `r = recognition(t, params[0]); return inflation*z[0] + r*z[1]*z[0]`. -/
def dpay (t : ℚ) (z params : List ℚ) : Option ℚ :=
  match params[0]?, z[0]?, z[1]? with
  | some p0, some z0, some z1 =>
      some (inflation * z0 + recognition t p0 * z1 * z0)
  | _, _, _ => none

/-- Status derivative:
`S = z[1]; R = z[2]; a_R = alpha_R(t, params[1]); a_T = alpha_T(t, params[2]);
return (a_R*R + a_T*(1 - R))*S*(1 - S)`. -/
def dstatus (t : ℚ) (z params : List ℚ) : Option ℚ :=
  match z[1]?, z[2]?, params[1]?, params[2]? with
  | some S, some R, some p1, some p2 =>
      some ((alpha_R t p1 * R + alpha_T t p2 * (1 - R)) * S * (1 - S))
  | _, _, _, _ => none

/-- Research derivative: `R = z[2]; b = beta(t, params[3]); return b * (1 - R) * R`. -/
def dresearch (t : ℚ) (z params : List ℚ) : Option ℚ :=
  match z[2]?, params[3]? with
  | some R, some p3 => some (beta t p3 * (1 - R) * R)
  | _, _ => none

/-- Vector field composer:
`dPay = dpay(t, z, params); dStatus = dstatus(t, z, params);
dResearch = dresearch(t, z, params); return [dPay, dStatus, dResearch]`. -/
def career_evolution (t : ℚ) (z params : List ℚ) : Option (List ℚ) :=
  match dpay t z params, dstatus t z params, dresearch t z params with
  | some dPay, some dStatus, some dResearch => some [dPay, dStatus, dResearch]
  | _, _, _ => none

/-- Claim C1: for every time t, state [Pay, Status, Research] and parameter list
whose entry 0 resolves to r, dpay returns exactly
inflation_rate * Pay + r * Status * Pay with the inflation rate being the
module constant 0.02. -/
theorem C1_dpay_formula (t P S R r : ℚ) (params : List ℚ)
    (h : params[0]? = some r) :
    dpay t [P, S, R] params = some (0.02 * P + r * S * P) := by
  simp [dpay, recognition, inflation, h]

/-- Claim C1 witness at a concrete input. -/
theorem C1_dpay_formula_witness :
    dpay 0 [100, 1/2, 1/4] [3, 5, 7, 9] = some 152 := by
  rw [C1_dpay_formula 0 100 (1/2) (1/4) 3 [3, 5, 7, 9] rfl]
  norm_num

/-- Claim C2: for every time t, state [Pay, Status, Research] and parameter list
whose entries 1 and 2 resolve to aR and aT, dstatus returns exactly
(aR * Research + aT * (1 - Research)) * Status * (1 - Status). -/
theorem C2_dstatus_formula (t P S R aR aT : ℚ) (params : List ℚ)
    (h1 : params[1]? = some aR) (h2 : params[2]? = some aT) :
    dstatus t [P, S, R] params = some ((aR * R + aT * (1 - R)) * S * (1 - S)) := by
  simp [dstatus, alpha_R, alpha_T, h1, h2]

/-- Claim C2 witness at a concrete input. -/
theorem C2_dstatus_formula_witness :
    dstatus 0 [100, 1/2, 1/4] [3, 4, 8, 9] = some (7/4) := by
  rw [C2_dstatus_formula 0 100 (1/2) (1/4) 4 8 [3, 4, 8, 9] rfl rfl]
  norm_num

/-- Claim C3: for every time t, state [Pay, Status, Research] and parameter list
whose entry 3 resolves to b, dresearch returns exactly
b * Research * (1 - Research). -/
theorem C3_dresearch_formula (t P S R b : ℚ) (params : List ℚ)
    (h : params[3]? = some b) :
    dresearch t [P, S, R] params = some (b * R * (1 - R)) := by
  simp only [dresearch, beta, List.getElem?_cons_succ, List.getElem?_cons_zero, h]
  exact congrArg some (by ring)

/-- Claim C3 witness at a concrete input. -/
theorem C3_dresearch_formula_witness :
    dresearch 0 [100, 1/2, 1/4] [3, 4, 8, 2] = some (3/8) := by
  rw [C3_dresearch_formula 0 100 (1/2) (1/4) 2 [3, 4, 8, 2] rfl]
  norm_num

/-- Claim C4: career_evolution returns exactly the three-element list
[dpay, dstatus, dresearch] in that order, and nothing else: its result is
some [a, b, c] precisely when the three derivative functions return
some a, some b and some c respectively. -/
theorem C4_career_evolution_composition (t : ℚ) (z params : List ℚ) (a b c : ℚ) :
    career_evolution t z params = some [a, b, c] ↔
      dpay t z params = some a ∧ dstatus t z params = some b ∧
        dresearch t z params = some c := by
  unfold career_evolution
  cases hp : dpay t z params <;> cases hs : dstatus t z params <;>
    cases hr : dresearch t z params <;> simp

/-- Claim C5: with Status and Research in [0,1] and nonnegative Pay, dstatus
evaluates to 0 whenever Status is 0 or 1, and dresearch evaluates to 0
whenever Research is 0 or 1 (the logistic fixed points). -/
theorem C5_logistic_fixed_points (t P S R aR aT b : ℚ) (params : List ℚ)
    (hP : 0 ≤ P) (hS0 : 0 ≤ S) (hS1 : S ≤ 1) (hR0 : 0 ≤ R) (hR1 : R ≤ 1) :
    (params[1]? = some aR → params[2]? = some aT → S = 0 ∨ S = 1 →
        dstatus t [P, S, R] params = some 0) ∧
    (params[3]? = some b → R = 0 ∨ R = 1 →
        dresearch t [P, S, R] params = some 0) := by
  constructor
  · intro h1 h2 hS
    rcases hS with hS | hS <;> subst hS <;> simp [dstatus, h1, h2]
  · intro h3 hR
    rcases hR with hR | hR <;> subst hR <;> simp [dresearch, h3]

/-- Claim C5 witness at concrete inputs: Status = 1 and Research = 0. -/
theorem C5_logistic_fixed_points_witness :
    dstatus 0 [100, 1, 0] [3, 4, 8, 2] = some 0 ∧
    dresearch 0 [100, 1, 0] [3, 4, 8, 2] = some 0 :=
  ⟨(C5_logistic_fixed_points 0 100 1 0 4 8 2 [3, 4, 8, 2] (by norm_num)
      (by norm_num) (by norm_num) (by norm_num) (by norm_num)).1 rfl rfl
      (Or.inr rfl),
   (C5_logistic_fixed_points 0 100 1 0 4 8 2 [3, 4, 8, 2] (by norm_num)
      (by norm_num) (by norm_num) (by norm_num) (by norm_num)).2 rfl
      (Or.inl rfl)⟩

/-- Claim C8: the derivative functions and the composer are deterministic:
two calls with identical (time, state, params) inputs return identical
outputs.  (The embedding is a pure function of its arguments, faithful to
the source bodies, which only read their arguments and never mutate the
state vector or the parameter list.) -/
theorem C8_pure_functions (t1 t2 : ℚ) (z1 z2 params1 params2 : List ℚ)
    (ht : t1 = t2) (hz : z1 = z2) (hp : params1 = params2) :
    dpay t1 z1 params1 = dpay t2 z2 params2 ∧
    dstatus t1 z1 params1 = dstatus t2 z2 params2 ∧
    dresearch t1 z1 params1 = dresearch t2 z2 params2 ∧
    career_evolution t1 z1 params1 = career_evolution t2 z2 params2 := by
  subst ht; subst hz; subst hp
  exact ⟨rfl, rfl, rfl, rfl⟩

/-- Claim C8 witness at a concrete input. -/
theorem C8_pure_functions_witness :
    dpay 1 [5, 6, 7] [1, 2, 3, 4] = dpay 1 [5, 6, 7] [1, 2, 3, 4] ∧
    dstatus 1 [5, 6, 7] [1, 2, 3, 4] = dstatus 1 [5, 6, 7] [1, 2, 3, 4] ∧
    dresearch 1 [5, 6, 7] [1, 2, 3, 4] = dresearch 1 [5, 6, 7] [1, 2, 3, 4] ∧
    career_evolution 1 [5, 6, 7] [1, 2, 3, 4] =
      career_evolution 1 [5, 6, 7] [1, 2, 3, 4] :=
  C8_pure_functions 1 1 [5, 6, 7] [5, 6, 7] [1, 2, 3, 4] [1, 2, 3, 4]
    rfl rfl rfl

/-- Claim C9: each parameter resolver is the identity on its base value, for
every time and every base value, with no error conditions (each is a total
function). -/
theorem C9_resolvers_identity (t val : ℚ) :
    recognition t val = val ∧ alpha_R t val = val ∧ alpha_T t val = val ∧
      beta t val = val :=
  ⟨rfl, rfl, rfl, rfl⟩

/-- Claim C10: the research dynamics are decoupled from Pay and Status: if two
state vectors agree at index 2 and two parameter lists agree at index 3,
then dresearch returns the same result at any two times. -/
theorem C10_dresearch_decoupled (t1 t2 : ℚ) (z1 z2 params1 params2 : List ℚ)
    (hR : z1[2]? = z2[2]?) (hb : params1[3]? = params2[3]?) :
    dresearch t1 z1 params1 = dresearch t2 z2 params2 := by
  cases h1 : z2[2]? <;> cases h2 : params2[3]? <;>
    simp [dresearch, beta, hR, hb, h1, h2]

/-- Claim C10 witness: concrete states and parameter lists that differ
everywhere except at the research and beta entries. -/
theorem C10_dresearch_decoupled_witness :
    dresearch 0 [1, 2, 3] [0, 0, 0, 4] = dresearch 7 [50, 60, 3, 99] [8, 8, 8, 4, 8] :=
  C10_dresearch_decoupled 0 7 [1, 2, 3] [50, 60, 3, 99] [0, 0, 0, 4]
    [8, 8, 8, 4, 8] rfl rfl

end AS1Main
